import Mathlib

/-!
Verification of the telegram data-platform repository: a shallow embedding of
the read API (`src/main.py`, `src/crud.py`) and of the Dagster orchestration
job (`dagster_pipeline/jobs/telegram_pipeline.py`,
`scripts/services/telegram_service.py`), with theorems settling the
specification's claims about them.
-/

set_option linter.unusedVariables false

namespace TelegramPlatform

/-! ## Read API data model

A row of `telegram_schema.fct_messages` as the two CRUD queries see it:
`message_id`, `channel_id`, `message_text` (nullable), `media_date`
(nullable timestamp, modelled as seconds since epoch) and `has_image`
(nullable boolean). -/

structure FctMessage where
  message_id : Int
  channel_id : String
  message_text : Option String
  media_date : Option Nat
  has_image : Option Bool
deriving DecidableEq, Repr

/-! ## SQL LIKE / ILIKE semantics

`crud.get_messages` filters with `message_text ILIKE :query` where the bound
parameter is `f"%{query}%"`.  SQL `LIKE` treats `%` as "any sequence of
characters" and `_` as "any single character"; `ILIKE` is the
case-insensitive variant (both sides lowercased). -/

def likeMatch : List Char → List Char → Bool
  | [], s => s.isEmpty
  | p :: ps, s =>
    if p = '\\' then
      match ps, s with
      | p' :: ps', c :: t => (p' == c) && likeMatch ps' t
      | _, _ => false
    else if p = '%' then
      match s with
      | [] => likeMatch ps []
      | _ :: t => likeMatch ps s || likeMatch ('%' :: ps) t
    else
      match s with
      | [] => false
      | c :: t => (decide (p = '_') || p == c) && likeMatch ps t
termination_by p s => (p.length, s.length)

def lowerChars (s : List Char) : List Char := s.map Char.toLower

/-- Postgres `text ILIKE pattern`: case-insensitive LIKE. -/
def ilike (t pattern : String) : Bool :=
  likeMatch (lowerChars pattern.toList) (lowerChars t.toList)

/-- The bound pattern `f"%{query}%"` built in `crud.get_messages`. -/
def sqlPattern (query : String) : String := "%" ++ query ++ "%"

/-- The WHERE clause of `crud.get_messages`:
`message_text IS NOT NULL AND message_text ILIKE '%query%'`. -/
def messageMatches (query : String) (m : FctMessage) : Bool :=
  match m.message_text with
  | none => false
  | some t => ilike t (sqlPattern query)

/-- Comparator for `ORDER BY media_date DESC` (SQL `DESC` puts NULLs first). -/
def mediaDateDesc (a b : FctMessage) : Bool :=
  match a.media_date, b.media_date with
  | none, _ => true
  | some _, none => false
  | some x, some y => y ≤ x

/-- `crud.get_messages`: rows with non-null `message_text` matching
`ILIKE '%query%'`, ordered by `media_date DESC`, `LIMIT 50`. -/
def get_messages (db : List FctMessage) (query : String) : List FctMessage :=
  (((db.filter (messageMatches query)).mergeSort mediaDateDesc).take 50)

/-! ## Channel activity -/

structure ChannelActivity where
  date : Option Nat
  message_count : Nat
deriving DecidableEq, Repr

/-- `DATE(media_date)`: truncate the timestamp to a day number; NULL stays NULL. -/
def dateOf (m : FctMessage) : Option Nat := m.media_date.map (· / 86400)

/-- Comparator for `ORDER BY DATE(media_date)` (ascending, NULLs last). -/
def dateAsc (a b : Option Nat) : Bool :=
  match a, b with
  | none, none => true
  | none, some _ => false
  | some _, none => true
  | some x, some y => x ≤ y

/-- `crud.get_channel_activity`: per-day message counts for one channel,
grouped by `DATE(media_date)`, ordered by date, `limit 10`. -/
def get_channel_activity (db : List FctMessage) (channel_id : String) :
    List ChannelActivity :=
  let rows := db.filter (fun m => m.channel_id == channel_id)
  let dates := ((rows.map dateOf).dedup).mergeSort dateAsc
  (dates.map (fun d => ⟨d, rows.countP (fun m => dateOf m == d)⟩)).take 10

/-! ## HTTP endpoints (`src/main.py`) -/

/-- Outcome of a FastAPI handler: a payload, or an `HTTPException`
carrying a status code and a detail string. -/
inductive ApiResult (α : Type) where
  | ok (payload : α)
  | httpError (status : Nat) (detail : String)
deriving DecidableEq, Repr

/-- The hardcoded `channel_map` dict of `main.py`. -/
def channel_map : List (String × String) :=
  [("lobelia4cosmetics", "9c8e1e57054ce9826cb986f55b25016d"),
   ("CheMed123", "13d619c52e5db90ef6a786b69ba3c978"),
   ("tikvahpharma", "f6e7cc642365e9c68c2066ff71d8de76")]

/-- `GET /api/channels/{channel_name}/activity`: look the name up in
`channel_map`; a missing key (or a falsy value) raises
`HTTPException(404, "Channel not found")`. -/
def get_activity (db : List FctMessage) (channel_name : String) :
    ApiResult (List ChannelActivity) :=
  match (channel_map.find? (fun p => p.1 == channel_name)).map Prod.snd with
  | none => .httpError 404 "Channel not found"
  | some channel_id =>
      if channel_id.isEmpty then .httpError 404 "Channel not found"
      else .ok (get_channel_activity db channel_id)

structure MessageSearchResult where
  success : Bool
  count : Nat
  results : List FctMessage
  query : String
deriving DecidableEq, Repr

/-- Python list slicing `l[a:b]` for integer bounds (as used by
`results[offset:offset + limit]`). -/
def pySlice (l : List FctMessage) (a b : Int) : List FctMessage :=
  let n : Int := l.length
  let clip : Int → Nat := fun i => ((max 0 (min (if i < 0 then n + i else i) n)).toNat)
  (l.take (clip b)).drop (clip a)

/-- `limit = min(max(1, limit), 100)` in `search_messages`. -/
def clampLimit (limit : Int) : Int := min (max 1 limit) 100

/-- `GET /api/search/messages`: clamp the limit, run `get_messages`, report
`count = len(results)` and slice `results[offset:offset + limit]`. -/
def search_messages (db : List FctMessage) (query : String)
    (limit offset : Int) : MessageSearchResult :=
  let lim := clampLimit limit
  let results := get_messages db query
  { success := true
    count := results.length
    results := pySlice results offset (offset + lim)
    query := query }

/-! ## Dagster pipeline (`dagster_pipeline/jobs/telegram_pipeline.py`)

Each `@op` shells out to a script with `subprocess.run` (no `timeout`
argument is passed) and raises when the script is missing or exits
non-zero.  The environment records, for each stage, whether its
script/project exists on disk and how its subprocess behaves; `duration`
is the wall-clock time the subprocess takes.  -/

structure SubprocResult where
  returncode : Int
  stderr : String
  duration : Nat
deriving DecidableEq, Repr

structure PipelineEnv where
  scrapingScriptExists : Bool
  scrapeRun : SubprocResult
  loadScriptExists : Bool
  loadRun : SubprocResult
  dbtProjectExists : Bool
  dbtRun : SubprocResult
  yoloScriptExists : Bool
  yoloRun : SubprocResult
deriving DecidableEq, Repr

/-- The `{"status": ..., "reason"?: ..., "timestamp": ...}` dict each op
returns (the timestamp is not modelled). -/
structure Payload where
  status : String
  reason : Option String
deriving DecidableEq, Repr

def successPayload : Payload := { status := "success", reason := none }

/-- Op `scrape_telegram_data`: raises `FileNotFoundError` when the script is
missing, raises on non-zero exit, else returns a success payload. -/
def scrape_telegram_data (env : PipelineEnv) : Except String Payload :=
  if env.scrapingScriptExists = false then
    .error "Scraping script not found"
  else if env.scrapeRun.returncode ≠ 0 then
    .error ("Scraping failed: " ++ env.scrapeRun.stderr)
  else .ok successPayload

/-- Op `load_raw_to_postgres(context, previous_result)`. -/
def load_raw_to_postgres (env : PipelineEnv) (previous_result : Payload) :
    Except String Payload :=
  if env.loadScriptExists = false then
    .error "Load script not found"
  else if env.loadRun.returncode ≠ 0 then
    .error ("Loading to PostgreSQL failed: " ++ env.loadRun.stderr)
  else .ok successPayload

/-- Op `run_dbt_transformations(context, previous_result)`. -/
def run_dbt_transformations (env : PipelineEnv) (previous_result : Payload) :
    Except String Payload :=
  if env.dbtProjectExists = false then
    .error "dbt project not found"
  else if env.dbtRun.returncode ≠ 0 then
    .error ("dbt transformations failed: " ++ env.dbtRun.stderr)
  else .ok successPayload

/-- Op `run_yolo_enrichment(context, previous_result)`: a missing script is
NOT an error — the op logs a warning and returns a `skipped` payload. -/
def run_yolo_enrichment (env : PipelineEnv) (previous_result : Payload) :
    Except String Payload :=
  if env.yoloScriptExists = false then
    .ok { status := "skipped", reason := some "YOLO script not found" }
  else if env.yoloRun.returncode ≠ 0 then
    .error ("YOLO enrichment failed: " ++ env.yoloRun.stderr)
  else .ok successPayload

instance : DecidableEq (Except String Payload) := fun a b =>
  match a, b with
  | .ok x, .ok y =>
    if h : x = y then .isTrue (by rw [h])
    else .isFalse (fun hc => h (Except.ok.inj hc))
  | .error x, .error y =>
    if h : x = y then .isTrue (by rw [h])
    else .isFalse (fun hc => h (Except.error.inj hc))
  | .ok _, .error _ => .isFalse (fun hc => Except.noConfusion hc)
  | .error _, .ok _ => .isFalse (fun hc => Except.noConfusion hc)

/-- Record of one op's execution inside a run: its name, the
`previous_result` input it received (none for the entry stage), and its
outcome (error string when the op raised). -/
structure StageExecution where
  stage_name : String
  input : Option Payload
  result : Except String Payload
deriving DecidableEq, Repr

inductive RunStatus where
  | succeeded
  | failed
deriving DecidableEq, Repr

structure Run where
  stages : List StageExecution
  status : RunStatus
deriving DecidableEq, Repr

/-- The `@graph telegram_pipeline` under Dagster's execution semantics for a
linear graph: ops run in dependency order, each receiving the previous op's
output; an op that raises fails the run and nothing downstream starts. -/
def telegram_pipeline (env : PipelineEnv) : Run :=
  match scrape_telegram_data env with
  | .error e => ⟨[⟨"scrape_telegram_data", none, .error e⟩], .failed⟩
  | .ok p1 =>
    let e1 : StageExecution := ⟨"scrape_telegram_data", none, .ok p1⟩
    match load_raw_to_postgres env p1 with
    | .error e => ⟨[e1, ⟨"load_raw_to_postgres", some p1, .error e⟩], .failed⟩
    | .ok p2 =>
      let e2 : StageExecution := ⟨"load_raw_to_postgres", some p1, .ok p2⟩
      match run_dbt_transformations env p2 with
      | .error e =>
          ⟨[e1, e2, ⟨"run_dbt_transformations", some p2, .error e⟩], .failed⟩
      | .ok p3 =>
        let e3 : StageExecution := ⟨"run_dbt_transformations", some p2, .ok p3⟩
        match run_yolo_enrichment env p3 with
        | .error e =>
            ⟨[e1, e2, e3, ⟨"run_yolo_enrichment", some p3, .error e⟩], .failed⟩
        | .ok p4 =>
            ⟨[e1, e2, e3, ⟨"run_yolo_enrichment", some p3, .ok p4⟩], .succeeded⟩

/-- Replace every subprocess duration in the environment (used to state that
the pipeline never inspects how long a stage ran). -/
def setDurations (env : PipelineEnv) (d1 d2 d3 d4 : Nat) : PipelineEnv :=
  { env with
    scrapeRun := { env.scrapeRun with duration := d1 }
    loadRun := { env.loadRun with duration := d2 }
    dbtRun := { env.dbtRun with duration := d3 }
    yoloRun := { env.yoloRun with duration := d4 } }

/-- The declaration order of the ops in `telegram_pipeline`, which is also
the (only) topological order of the linear graph. -/
def stageOrder : List String :=
  ["scrape_telegram_data", "load_raw_to_postgres",
   "run_dbt_transformations", "run_yolo_enrichment"]

/-- Consecutive stage executions are chained: each later stage's recorded
input is exactly the payload its predecessor produced. -/
def chainedB : List StageExecution → Bool
  | [] => true
  | [_] => true
  | a :: b :: rest =>
    (match a.result with
     | .ok p => b.input == some p
     | .error _ => false) && chainedB (b :: rest)

/-! ## `TelegramService.connect` (`scripts/services/telegram_service.py`)

`connect` loops `for attempt in range(max_retries)` with `max_retries = 3`
and `retry_delay = 5`; any exception before the last attempt sleeps
`retry_delay` seconds and doubles it; the last attempt re-raises.  The
environment says which attempts would succeed; the result is whether
`connect` returns without raising, together with the list of sleep delays
performed, in order. -/

def connectGo (ok : Nat → Bool) (max_retries : Nat) (retry_delay : Nat) :
    List Nat → Bool × List Nat
  | [] => (true, [])
  | attempt :: rest =>
    if ok attempt then (true, [])
    else if attempt < max_retries - 1 then
      let r := connectGo ok max_retries (retry_delay * 2) rest
      (r.1, retry_delay :: r.2)
    else (false, [])

def connect (ok : Nat → Bool) : Bool × List Nat :=
  connectGo ok 3 5 (List.range 3)

/-- Number of failed attempts before `connect` first succeeds, capped at 2
(after the third failure it raises instead of sleeping). -/
def leadingFailures (ok : Nat → Bool) : Nat :=
  if ok 0 then 0 else if ok 1 then 1 else 2

/-! ## Specification-side definitions and concrete inputs

`isSubstrOf`/`containsCI` formalise the spec's reading of search matching
("contains the query as a case-insensitive substring"); they are compared
against `messageMatches`, which embeds the ILIKE query of `crud.py`. -/

/-- `q` has no LIKE metacharacter (`%`, `_`, or the escape `\`); checked on
the lowercased query (`Char.toLower` leaves these three characters fixed). -/
def plainChars (q : List Char) : Bool :=
  q.all (fun c => !(c == '\\') && !(c == '%') && !(c == '_'))

def likeSafe (q : String) : Bool := plainChars (lowerChars q.toList)

/-- `needle` occurs as a contiguous substring of `hay`. -/
def isSubstrOf (needle hay : List Char) : Bool :=
  (List.range (hay.length + 1)).any (fun i => needle.isPrefixOf (hay.drop i))

/-- Spec wording: `t` contains `q` as a case-insensitive substring. -/
def containsCI (t q : String) : Bool :=
  isSubstrOf (lowerChars q.toList) (lowerChars t.toList)

def resultIsOk : Except String Payload → Bool
  | .ok _ => true
  | .error _ => false

/-- A stored message whose text is exactly "covid". -/
def covidRow : FctMessage := ⟨1, "chan", some "covid", some 0, some true⟩

/-- A stored message whose text is the single letter "a". -/
def letterRow : FctMessage := ⟨2, "chan", some "a", none, none⟩

/-- Environment where the scraping subprocess exits non-zero and everything
downstream would succeed. -/
def envScrapeFail : PipelineEnv :=
  ⟨true, ⟨1, "network down", 3⟩, true, ⟨0, "", 1⟩, true, ⟨0, "", 1⟩,
   true, ⟨0, "", 1⟩⟩

/-- Environment where everything succeeds except that `detect_objects.py`
is absent. -/
def envNoYolo : PipelineEnv :=
  ⟨true, ⟨0, "", 1⟩, true, ⟨0, "", 1⟩, true, ⟨0, "", 1⟩, false, ⟨0, "", 0⟩⟩

/-- Environment where every subprocess succeeds but takes 10^9 seconds. -/
def envOverrun : PipelineEnv :=
  ⟨true, ⟨0, "", 1000000000⟩, true, ⟨0, "", 1000000000⟩,
   true, ⟨0, "", 1000000000⟩, true, ⟨0, "", 1000000000⟩⟩

/-! ## Theorems -/

/-- Claim C1: when the scrape stage fails, the run is `failed`, its stage
executions consist of exactly the failed scrape execution, and the load,
transform and enrich stages are never attempted. -/
theorem scrape_failure_halts_run (env : PipelineEnv)
    (h : ∃ e, scrape_telegram_data env = .error e) :
    (telegram_pipeline env).status = .failed ∧
    ∃ e, (telegram_pipeline env).stages =
      [⟨"scrape_telegram_data", none, .error e⟩] := by
  obtain ⟨e, he⟩ := h
  refine ⟨?_, e, ?_⟩ <;> simp [telegram_pipeline, he]

/-- Witness for C1: an environment whose scrape subprocess exits 1. -/
theorem scrape_failure_halts_run_witness :
    (∃ e, scrape_telegram_data envScrapeFail = .error e) ∧
    ((telegram_pipeline envScrapeFail).status = .failed ∧
     ∃ e, (telegram_pipeline envScrapeFail).stages =
       [⟨"scrape_telegram_data", none, .error e⟩]) :=
  ⟨⟨"Scraping failed: network down", by decide⟩,
   scrape_failure_halts_run envScrapeFail
     ⟨"Scraping failed: network down", by decide⟩⟩

/-- Claim C3 (amended): the pipeline enforces no timeout at all — the run's
outcome is unchanged under any change of the subprocess durations, so a
stage exceeding any budget is never terminated nor reported as `Timeout`. -/
theorem telegram_pipeline_ignores_durations (env : PipelineEnv)
    (d1 d2 d3 d4 : Nat) :
    telegram_pipeline (setDurations env d1 d2 d3 d4) = telegram_pipeline env :=
  rfl

/-- Counterexample to C3 as stated: every stage's subprocess runs 10^9
seconds, yet no execution is terminated or reported as a timeout failure —
the run succeeds with every stage execution `ok`. -/
theorem telegram_pipeline_timeout_cex :
    envOverrun.scrapeRun.duration = 1000000000 ∧
    (telegram_pipeline envOverrun).status = .succeeded ∧
    (telegram_pipeline envOverrun).stages.all
      (fun se => resultIsOk se.result) = true := by decide

/-- Claim C5: with the object-detection script missing and all prior stages
succeeding, the enrich execution resolves `ok` with a `skipped` payload (no
error raised) and the run succeeds. -/
theorem yolo_missing_skips (env : PipelineEnv)
    (hy : env.yoloScriptExists = false)
    (hs : ∃ p, scrape_telegram_data env = .ok p)
    (hl : ∃ p q, load_raw_to_postgres env p = .ok q)
    (hd : ∃ p q, run_dbt_transformations env p = .ok q) :
    (telegram_pipeline env).status = .succeeded ∧
    ∃ pin, (telegram_pipeline env).stages.getLast? =
      some ⟨"run_yolo_enrichment", some pin,
            .ok ⟨"skipped", some "YOLO script not found"⟩⟩ := by
  obtain ⟨p1, h1⟩ := hs
  obtain ⟨pa, q2, h2⟩ := hl
  obtain ⟨pb, q3, h3⟩ := hd
  have h2' : load_raw_to_postgres env p1 = .ok q2 := h2
  have h3' : run_dbt_transformations env q2 = .ok q3 := h3
  have h4 : run_yolo_enrichment env q3 =
      .ok ⟨"skipped", some "YOLO script not found"⟩ := by
    simp [run_yolo_enrichment, hy]
  refine ⟨?_, q3, ?_⟩ <;> simp [telegram_pipeline, h1, h2', h3', h4]

/-- Witness for C5: the concrete environment lacking `detect_objects.py`. -/
theorem yolo_missing_skips_witness :
    (envNoYolo.yoloScriptExists = false ∧
     (∃ p, scrape_telegram_data envNoYolo = .ok p) ∧
     (∃ p q, load_raw_to_postgres envNoYolo p = .ok q) ∧
     (∃ p q, run_dbt_transformations envNoYolo p = .ok q)) ∧
    ((telegram_pipeline envNoYolo).status = .succeeded ∧
     ∃ pin, (telegram_pipeline envNoYolo).stages.getLast? =
       some ⟨"run_yolo_enrichment", some pin,
             .ok ⟨"skipped", some "YOLO script not found"⟩⟩) :=
  ⟨⟨rfl, ⟨successPayload, rfl⟩, ⟨successPayload, successPayload, rfl⟩,
    ⟨successPayload, successPayload, rfl⟩⟩,
   yolo_missing_skips envNoYolo rfl ⟨successPayload, rfl⟩
     ⟨successPayload, successPayload, rfl⟩
     ⟨successPayload, successPayload, rfl⟩⟩

/-- Claim C6: the stage executions of every run appear in the graph's
topological order (a prefix of scrape, load, transform, enrich), and each
later stage's recorded input equals the previous stage's output payload. -/
theorem run_order_and_chaining (env : PipelineEnv) :
    ((telegram_pipeline env).stages.map StageExecution.stage_name) <+: stageOrder ∧
    chainedB (telegram_pipeline env).stages = true := by
  rcases h1 : scrape_telegram_data env with e1 | p1
  · refine ⟨?_, ?_⟩ <;>
      simp [telegram_pipeline, h1, chainedB, stageOrder,
            List.cons_prefix_cons, List.nil_prefix]
  · rcases h2 : load_raw_to_postgres env p1 with e2 | p2
    · refine ⟨?_, ?_⟩ <;>
        simp [telegram_pipeline, h1, h2, chainedB, stageOrder,
              List.cons_prefix_cons, List.nil_prefix]
    · rcases h3 : run_dbt_transformations env p2 with e3 | p3
      · refine ⟨?_, ?_⟩ <;>
          simp [telegram_pipeline, h1, h2, h3, chainedB, stageOrder,
                List.cons_prefix_cons, List.nil_prefix]
      · rcases h4 : run_yolo_enrichment env p3 with e4 | p4 <;>
          refine ⟨?_, ?_⟩ <;>
            simp [telegram_pipeline, h1, h2, h3, h4, chainedB, stageOrder,
                  List.cons_prefix_cons, List.nil_prefix]

/-- Claim C4 (amended): `connect` makes at most 3 attempts in total; after
the n-th failed attempt (n = 0, 1) it sleeps exactly 5·2^n seconds —
deterministically, with no jitter and no cap — and a third failure
re-raises with no further sleep. -/
theorem connect_backoff (ok : Nat → Bool) :
    (connect ok).1 = (ok 0 || ok 1 || ok 2) ∧
    (connect ok).2 =
      (List.range (leadingFailures ok)).map (fun i => 5 * 2 ^ i) := by
  have hr : List.range 3 = [0, 1, 2] := rfl
  rcases h0 : ok 0 <;> rcases h1 : ok 1 <;> rcases h2 : ok 2 <;>
    simp [connect, hr, connectGo, leadingFailures, h0, h1, h2,
          List.range_succ]

/-- Counterexample to C4 as stated: with attempt 0 failing and attempt 1
succeeding, the single sleep performed is 5 seconds — not
`base_delay * 2^1 = 10` as the claimed formula gives for the delay before
attempt 1. -/
theorem connect_backoff_cex :
    (connect (fun n => decide (n ≠ 0))).2 = [5] ∧ (5 : Nat) ≠ 5 * 2 ^ 1 := by
  decide

/-- Helper shared by C7 and C10: any name other than the three hardcoded
keys yields the 404 error. -/
theorem get_activity_not_found (db : List FctMessage) (name : String)
    (h1 : name ≠ "lobelia4cosmetics") (h2 : name ≠ "CheMed123")
    (h3 : name ≠ "tikvahpharma") :
    get_activity db name = .httpError 404 "Channel not found" := by
  have e1 : (("lobelia4cosmetics" : String) == name) = false :=
    beq_eq_false_iff_ne.mpr (Ne.symm h1)
  have e2 : (("CheMed123" : String) == name) = false :=
    beq_eq_false_iff_ne.mpr (Ne.symm h2)
  have e3 : (("tikvahpharma" : String) == name) = false :=
    beq_eq_false_iff_ne.mpr (Ne.symm h3)
  simp [get_activity, channel_map, List.find?, e1, e2, e3]

/-- Claim C7: an unknown channel identifier produces HTTP 404 with detail
"Channel not found" (the handler raises only this fixed-detail
`HTTPException`, never a stack trace). -/
theorem unknown_channel_404 (db : List FctMessage) (name : String)
    (h : name ∉ ["lobelia4cosmetics", "CheMed123", "tikvahpharma"]) :
    get_activity db name = .httpError 404 "Channel not found" := by
  simp only [List.mem_cons, List.not_mem_nil, or_false, not_or] at h
  exact get_activity_not_found db name h.1 h.2.1 h.2.2

/-- Witness for C7 at the spec's concrete input `unknown_channel`. -/
theorem unknown_channel_404_witness :
    ("unknown_channel" ∉ ["lobelia4cosmetics", "CheMed123", "tikvahpharma"]) ∧
    get_activity [] "unknown_channel" = .httpError 404 "Channel not found" :=
  ⟨by decide, unknown_channel_404 [] "unknown_channel" (by decide)⟩

/-- Claim C8: the activity endpoint returns at most 10 `{date,
message_count}` entries, however many distinct dates the channel has. -/
theorem channel_activity_at_most_ten (db : List FctMessage) (cid : String) :
    (get_channel_activity db cid).length ≤ 10 :=
  List.length_take_le _ _

/-- Claim C10: the accepted channel names are exactly the three hardcoded
keys; every other name — including raw channel ids — gets 404. -/
theorem channel_allowlist (db : List FctMessage) (name : String) :
    (name ∈ ["lobelia4cosmetics", "CheMed123", "tikvahpharma"] →
      ∃ acts, get_activity db name = .ok acts) ∧
    (name ∉ ["lobelia4cosmetics", "CheMed123", "tikvahpharma"] →
      get_activity db name = .httpError 404 "Channel not found") := by
  constructor
  · intro h
    simp only [List.mem_cons, List.not_mem_nil, or_false] at h
    rcases h with rfl | rfl | rfl
    · exact ⟨_, rfl⟩
    · exact ⟨_, rfl⟩
    · exact ⟨_, rfl⟩
  · intro h
    simp only [List.mem_cons, List.not_mem_nil, or_false, not_or] at h
    exact get_activity_not_found db name h.1 h.2.1 h.2.2

/-- Witness for C10: a hardcoded name succeeds; a raw channel id that the
scraper really uses still gets 404. -/
theorem channel_allowlist_witness :
    ("lobelia4cosmetics" ∈ ["lobelia4cosmetics", "CheMed123", "tikvahpharma"] ∧
      ∃ acts, get_activity [] "lobelia4cosmetics" = .ok acts) ∧
    ("9c8e1e57054ce9826cb986f55b25016d" ∉
        ["lobelia4cosmetics", "CheMed123", "tikvahpharma"] ∧
      get_activity [] "9c8e1e57054ce9826cb986f55b25016d" =
        .httpError 404 "Channel not found") :=
  ⟨⟨by decide, (channel_allowlist [] "lobelia4cosmetics").1 (by decide)⟩,
   ⟨by decide, (channel_allowlist [] "9c8e1e57054ce9826cb986f55b25016d").2
      (by decide)⟩⟩

/-- Helper: `get_messages` returns `min 50 (number of matches)` rows —
the SQL `LIMIT 50` caps the result set before the API ever slices it. -/
theorem get_messages_length (db : List FctMessage) (q : String) :
    (get_messages db q).length = min 50 (db.filter (messageMatches q)).length := by
  have h : get_messages db q =
      ((db.filter (messageMatches q)).mergeSort mediaDateDesc).take 50 := rfl
  rw [h, List.length_take, List.length_mergeSort]

/-- Helper: a Python slice never lengthens a list. -/
theorem take_drop_length_le (l : List FctMessage) (j k : Nat) :
    ((l.take k).drop j).length ≤ l.length := by
  rw [List.length_drop, List.length_take]
  omega

/-- Helper: `results[offset:offset+limit]` has at most as many rows as
`results`. -/
theorem pySlice_length_le (l : List FctMessage) (a b : Int) :
    (pySlice l a b).length ≤ l.length := by
  simp only [pySlice]
  exact take_drop_length_le l _ _

/-- Claim C2 (amended): the effective limit is clamped to [1,100]
(150 becomes 100) and `results` has length ≤ 100, but `count` equals
`min 50 (total matches)` — the SQL `LIMIT 50` caps it — not the total
number of matches. -/
theorem search_messages_spec (db : List FctMessage) (q : String)
    (limit offset : Int) :
    1 ≤ clampLimit limit ∧ clampLimit limit ≤ 100 ∧ clampLimit 150 = 100 ∧
    (search_messages db q limit offset).count
      = min 50 (db.filter (messageMatches q)).length ∧
    (search_messages db q limit offset).results.length ≤ 100 := by
  refine ⟨?_, ?_, by decide, get_messages_length db q, ?_⟩
  · simp only [clampLimit]; omega
  · simp only [clampLimit]; omega
  · calc (search_messages db q limit offset).results.length
        ≤ (get_messages db q).length :=
          pySlice_length_le (get_messages db q) offset (offset + clampLimit limit)
      _ ≤ 50 := by rw [get_messages_length]; exact min_le_left _ _
      _ ≤ 100 := by omega

/-- Counterexample to C2 as stated: with 51 stored messages matching
"covid" and `limit=150`, `count` is 50 (the SQL `LIMIT 50`), not the total
number of matches before the slice (51). -/
theorem search_count_cex :
    (search_messages (List.replicate 51 covidRow) "covid" 150 0).count ≠
      ((List.replicate 51 covidRow).filter (messageMatches "covid")).length := by
  have hp : lowerChars (sqlPattern "covid").data =
      ['%', 'c', 'o', 'v', 'i', 'd', '%'] := by decide
  have ht : lowerChars ['c', 'o', 'v', 'i', 'd'] = ['c', 'o', 'v', 'i', 'd'] := by
    decide
  have hm : messageMatches "covid" covidRow = true := by
    simp [messageMatches, covidRow, ilike, hp, ht, likeMatch]
  have hf : (List.replicate 51 covidRow).filter (messageMatches "covid") =
      List.replicate 51 covidRow := by
    simp [List.filter_replicate, hm]
  have hc : (search_messages (List.replicate 51 covidRow) "covid" 150 0).count
      = min 50 ((List.replicate 51 covidRow).filter
          (messageMatches "covid")).length :=
    get_messages_length _ _
  rw [hc, hf, List.length_replicate]
  omega

/-! ### LIKE semantics versus plain substring search (C9) -/

/-- A lone `%` pattern matches every string. -/
theorem likeMatch_percent (s : List Char) : likeMatch ['%'] s = true := by
  induction s with
  | nil => rw [likeMatch.eq_def]; simp [likeMatch]
  | cons c t ih => rw [likeMatch.eq_def]; simp only [ih]; simp [likeMatch]

/-- A leading `%` matches iff the rest of the pattern matches some suffix. -/
theorem likeMatch_star_iff (ps s : List Char) :
    likeMatch ('%' :: ps) s = true ↔ ∃ n, likeMatch ps (s.drop n) = true := by
  induction s with
  | nil =>
    rw [likeMatch.eq_def]
    simp
  | cons c t ih =>
    rw [likeMatch.eq_def]
    simp only [reduceIte]
    constructor
    · intro h
      rcases Bool.or_eq_true_iff.mp (by simpa using h) with h' | h'
      · exact ⟨0, by simpa using h'⟩
      · obtain ⟨n, hn⟩ := ih.mp h'
        exact ⟨n + 1, by simpa using hn⟩
    · rintro ⟨n, hn⟩
      cases n with
      | zero => simp at hn; simp [hn]
      | succ m =>
        have h' : likeMatch ('%' :: ps) t = true := ih.mpr ⟨m, by simpa using hn⟩
        simp [h']

/-- A metacharacter-free pattern followed by `%` matches iff it is a literal
prefix of the text. -/
theorem likeMatch_lit_iff (q : List Char)
    (hq : ∀ c ∈ q, c ≠ '\\' ∧ c ≠ '%' ∧ c ≠ '_') (s : List Char) :
    likeMatch (q ++ ['%']) s = true ↔ q <+: s := by
  induction q generalizing s with
  | nil => simp [likeMatch_percent, List.nil_prefix]
  | cons c q' ih =>
    obtain ⟨hc1, hc2, hc3⟩ := hq c (List.mem_cons_self c q')
    have hq' : ∀ x ∈ q', x ≠ '\\' ∧ x ≠ '%' ∧ x ≠ '_' :=
      fun x hx => hq x (List.mem_cons_of_mem c hx)
    cases s with
    | nil =>
      rw [List.cons_append, likeMatch.eq_def]
      simp [hc1, hc2]
    | cons d t =>
      rw [List.cons_append, likeMatch.eq_def]
      simp [hc1, hc2, hc3, ih hq', List.cons_prefix_cons, Bool.and_eq_true,
            beq_iff_eq]

theorem exists_prefix_drop_iff (q s : List Char) :
    (∃ n, q <+: s.drop n) ↔ q <:+: s := by
  constructor
  · rintro ⟨n, hn⟩
    exact List.infix_iff_prefix_suffix.mpr ⟨s.drop n, hn, List.drop_suffix n s⟩
  · rintro ⟨u, v, rfl⟩
    refine ⟨u.length, ?_⟩
    rw [List.append_assoc, List.drop_left]
    exact List.prefix_append q v

theorem isSubstrOf_iff (q s : List Char) : isSubstrOf q s = true ↔ q <:+: s := by
  rw [← exists_prefix_drop_iff]
  simp only [isSubstrOf, List.any_eq_true, List.mem_range]
  constructor
  · rintro ⟨i, hi, hp⟩
    exact ⟨i, List.isPrefixOf_iff_prefix.mp hp⟩
  · rintro ⟨n, hn⟩
    rcases le_or_lt n s.length with h | h
    · exact ⟨n, by omega, List.isPrefixOf_iff_prefix.mpr hn⟩
    · refine ⟨s.length, by omega, List.isPrefixOf_iff_prefix.mpr ?_⟩
      rw [List.drop_length]
      have hd : s.drop n = [] := List.drop_eq_nil_of_le (by omega)
      rw [hd] at hn
      exact hn

/-- For a metacharacter-free needle, `%needle%` matches exactly the texts
containing the needle as a contiguous substring. -/
theorem likeMatch_substr_iff (q s : List Char)
    (hq : ∀ c ∈ q, c ≠ '\\' ∧ c ≠ '%' ∧ c ≠ '_') :
    likeMatch ('%' :: (q ++ ['%'])) s = true ↔ isSubstrOf q s = true := by
  rw [likeMatch_star_iff, isSubstrOf_iff, ← exists_prefix_drop_iff]
  constructor
  · rintro ⟨n, hn⟩
    exact ⟨n, (likeMatch_lit_iff q hq _).mp hn⟩
  · rintro ⟨n, hn⟩
    exact ⟨n, (likeMatch_lit_iff q hq _).mpr hn⟩

/-- The lowercased bound pattern is `%` , the lowercased query, `%`. -/
theorem pattern_decomp (q : String) :
    lowerChars (sqlPattern q).toList = '%' :: (lowerChars q.toList ++ ['%']) := by
  have h1 : ("%" : String).data = ['%'] := rfl
  have h2 : Char.toLower '%' = '%' := rfl
  show List.map Char.toLower (("%" ++ q ++ "%").data) = _
  rw [String.data_append, String.data_append, h1]
  simp [lowerChars, String.toList, h2]

/-- The match set of a query depends only on its lowercasing. -/
theorem messageMatches_congr (q₁ q₂ : String) (m : FctMessage)
    (h : lowerChars q₁.toList = lowerChars q₂.toList) :
    messageMatches q₁ m = messageMatches q₂ m := by
  cases hm : m.message_text with
  | none => simp [messageMatches, hm]
  | some t => simp only [messageMatches, hm, ilike, pattern_decomp, h]

/-- For metacharacter-free queries, ILIKE `%q%` matching is exactly
case-insensitive substring containment on non-null text. -/
theorem messageMatches_iff (q : String) (m : FctMessage)
    (h : likeSafe q = true) :
    messageMatches q m = true ↔
      ∃ t, m.message_text = some t ∧ containsCI t q = true := by
  have hplain : ∀ c ∈ lowerChars q.toList, c ≠ '\\' ∧ c ≠ '%' ∧ c ≠ '_' := by
    intro c hc
    have h' : (lowerChars q.toList).all
        (fun c => !(c == '\\') && !(c == '%') && !(c == '_')) = true := h
    have h2 := List.all_eq_true.mp h' c hc
    simp only [Bool.and_eq_true, Bool.not_eq_true', beq_eq_false_iff_ne] at h2
    exact ⟨h2.1.1, h2.1.2, h2.2⟩
  cases hm : m.message_text with
  | none => simp [messageMatches, hm]
  | some t =>
    simp only [messageMatches, hm, Option.some.injEq, ilike, pattern_decomp]
    rw [likeMatch_substr_iff _ _ hplain]
    constructor
    · intro h2
      exact ⟨t, rfl, h2⟩
    · rintro ⟨t', ht', h2⟩
      obtain rfl : t = t' := ht'
      exact h2

/-- Claim C9 (amended): search matching is determined by the lowercased
query (queries differing only in case have identical match sets), and for
queries free of LIKE metacharacters (`%`, `_`, `\`) a message matches
exactly when its text is non-null and contains the query as a
case-insensitive substring.  (For queries containing metacharacters the
substring reading fails — see the counterexample.) -/
theorem search_matching_ci (q₁ q₂ q : String) (m : FctMessage)
    (hcase : lowerChars q₁.toList = lowerChars q₂.toList)
    (hplain : likeSafe q = true) :
    messageMatches q₁ m = messageMatches q₂ m ∧
    (messageMatches q m = true ↔
      ∃ t, m.message_text = some t ∧ containsCI t q = true) :=
  ⟨messageMatches_congr q₁ q₂ m hcase, messageMatches_iff q m hplain⟩

/-- Witness for C9 at concrete inputs. -/
theorem search_matching_ci_witness :
    (lowerChars "CoViD".toList = lowerChars "covid".toList ∧
     likeSafe "covid" = true) ∧
    (messageMatches "CoViD" covidRow = messageMatches "covid" covidRow ∧
     (messageMatches "covid" covidRow = true ↔
       ∃ t, covidRow.message_text = some t ∧ containsCI t "covid" = true)) :=
  ⟨⟨by decide, by decide⟩,
   search_matching_ci "CoViD" "covid" "covid" covidRow (by decide) (by decide)⟩

/-- Counterexample to C9 as stated: the query "_" (a LIKE wildcard) matches
the stored text "a", which does not contain "_" as a substring. -/
theorem search_matching_cex :
    messageMatches "_" letterRow = true ∧ containsCI "a" "_" = false := by
  constructor
  · have hp : lowerChars (sqlPattern "_").data = ['%', '_', '%'] := by decide
    have ht : lowerChars ['a'] = ['a'] := by decide
    simp [messageMatches, letterRow, ilike, hp, ht, likeMatch]
  · decide

end TelegramPlatform
